import Mathlib

/-
Verification development for the Minecraft (Bedrock Edition) connection
state machine of minecraft/conn.go: the login handshake, encryption key
agreement, resource pack transfer, deadlines and the raw Read/Write
surface. Go code is shallowly embedded: stateful methods become pure
state transformers `Conn → ... → Conn × Option String` (the Option is
Go's returned error), external collaborators (JWT primitives, the login
package, the transport, SHA-256, the P-384 curve) are represented by
their results or by algebraically equivalent executable stand-ins, as
the spec declares them out of scope.
-/

/-- Packet identifiers (the numeric constants of the external packet
package; their values are the standard Bedrock protocol IDs, only their
distinctness matters here). -/
def IDLogin : Nat := 1

/-- Packet ID of the PlayStatus packet. -/
def IDPlayStatus : Nat := 2

/-- Packet ID of the ServerToClientHandshake packet. -/
def IDServerToClientHandshake : Nat := 3

/-- Packet ID of the ClientToServerHandshake packet. -/
def IDClientToServerHandshake : Nat := 4

/-- Packet ID of the Disconnect packet. -/
def IDDisconnect : Nat := 5

/-- Packet ID of the ResourcePacksInfo packet. -/
def IDResourcePacksInfo : Nat := 6

/-- Packet ID of the ResourcePackStack packet. -/
def IDResourcePackStack : Nat := 7

/-- Packet ID of the ResourcePackClientResponse packet. -/
def IDResourcePackClientResponse : Nat := 8

/-- Packet ID of the StartGame packet. -/
def IDStartGame : Nat := 11

/-- Packet ID of the RequestChunkRadius packet. -/
def IDRequestChunkRadius : Nat := 69

/-- Packet ID of the ResourcePackDataInfo packet. -/
def IDResourcePackDataInfo : Nat := 82

/-- Packet ID of the ResourcePackChunkData packet. -/
def IDResourcePackChunkData : Nat := 83

/-- Packet ID of the ResourcePackChunkRequest packet. -/
def IDResourcePackChunkRequest : Nat := 84

/-- PlayStatus status code: login success. -/
def playStatusLoginSuccess : Int := 0

/-- PlayStatus status code: client outdated. -/
def playStatusLoginFailedClient : Int := 1

/-- PlayStatus status code: server outdated. -/
def playStatusLoginFailedServer : Int := 2

/-- PlayStatus status code: player spawn. -/
def playStatusPlayerSpawn : Int := 3

/-- PlayStatus status code: invalid edu edition game owner. -/
def playStatusLoginFailedInvalidTenant : Int := 4

/-- PlayStatus status code: edu game joined from vanilla. -/
def playStatusLoginFailedVanillaEdu : Int := 5

/-- PlayStatus status code: vanilla game joined from edu. -/
def playStatusLoginFailedEduVanilla : Int := 6

/-- PlayStatus status code: server full. -/
def playStatusLoginFailedServerFull : Int := 7

/-- ResourcePackClientResponse response code: refused. -/
def packResponseRefused : Nat := 1

/-- ResourcePackClientResponse response code: send packs. -/
def packResponseSendPacks : Nat := 2

/-- ResourcePackClientResponse response code: all packs downloaded. -/
def packResponseAllPacksDownloaded : Nat := 3

/-- ResourcePackClientResponse response code: completed. -/
def packResponseCompleted : Nat := 4

/-- Size of a single chunk of data from a resource pack: 512 kB
(conn.go: `const packChunkSize = 1024 * 512`). -/
def packChunkSize : Int := 1024 * 512

/-- Modelled from the spec: `protocol.CurrentProtocol`, the server's
compiled protocol version (an external constant of the protocol
package; the claims only compare a client value with it for equality
and order, so the concrete value is immaterial). -/
def currentProtocol : Int := 354

/-- A resource pack (the resource package is external: a pack is an
opaque byte-addressable blob with UUID, version, length and the
behaviours/scripts classifiers). -/
structure Pack where
  uuid : String
  version : String
  content : List Nat
  hasBehaviours : Bool
  hasScripts : Bool
deriving DecidableEq, Repr

/-- An entry of a ResourcePacksInfo packet: UUID, version, size and the
per-pack scripts flag. -/
structure PackEntry where
  uuid : String
  version : String
  size : Int
  entryHasScripts : Bool
deriving DecidableEq, Repr

/-- Modelled from the spec: the `downloadingPack` record of the missing
resource_pack_queue.go file — declared size, the growing byte buffer
(here only its current length, since the buffer is filled by the
concurrent fetcher), the declared chunk size, the next expected chunk
index, and the fragments handed to the fetcher over the `newFrag`
channel (here an explicit list of delivered fragments). -/
structure DownloadingPack where
  size : Int
  bufLen : Nat
  chunkSize : Int
  expectedIndex : Int
  frags : List (List Nat)
deriving DecidableEq, Repr

/-- Modelled from the spec: the `resourcePackQueue` record of the
missing resource_pack_queue.go file — the count of packs still to be
fully received, the ordered packs left to serve (server role), the
current pack and byte cursor, and the two UUID-keyed maps of packs
being downloaded (client role), as association lists. -/
structure PackQueue where
  packAmount : Int
  packs : List Pack
  currentPack : Option Pack
  currentOffset : Int
  downloadingPacks : List (String × DownloadingPack)
  awaitingPacks : List (String × DownloadingPack)
deriving DecidableEq, Repr

/-- Identity data decoded from a verified Login JWT chain. The external
`Validate` method is represented by its result on this value. -/
structure IdentityData where
  uuid : String
  xuid : String
  displayName : String
  validateErr : Option String
deriving DecidableEq, Repr

/-- Client data (opaque descriptor); the external `Validate` method is
represented by its result on this value. -/
structure ClientData where
  validateErr : Option String
deriving DecidableEq, Repr

/-- A Login packet's connection request, represented by the results of
the external login-package calls on it: `login.Verify` (public key,
authenticated flag, error) and `login.Decode` (identity data, client
data, error), Go style as value-plus-error. -/
structure ConnectionRequest where
  verifyKey : Nat
  verifyAuth : Bool
  verifyErr : Option String
  decodeIdentity : IdentityData
  decodeClient : ClientData
  decodeErr : Option String
deriving DecidableEq, Repr

/-- A ServerToClientHandshake packet's JWT, represented by the results
of the external jwt-package calls on it: header extraction and JSON
parse, the header's alg and parsed x5u public key, signature
verification, payload JSON parse, and the salt entry (presence and
base64 decode result). -/
structure S2CJwt where
  headerFromErr : Option String
  headerJsonErr : Option String
  alg : String
  x5uKey : Nat
  x5uErr : Option String
  verifyErr : Option String
  payloadJsonErr : Option String
  saltPresent : Bool
  saltDecodeErr : Option String
  salt : List Nat
deriving DecidableEq, Repr

/-- The wire packets handled by conn.go, with exactly the payload
fields the handlers consult. -/
inductive Packet where
  | login (clientProtocol : Int) (request : ConnectionRequest)
  | playStatus (status : Int)
  | serverToClientHandshake (token : S2CJwt)
  | clientToServerHandshake
  | disconnect (message : String)
  | resourcePacksInfo (texturePackRequired scriptsFlag : Bool)
      (texturePacks behaviourPacks : List PackEntry)
  | resourcePackStack (texturePackRequired : Bool)
      (texturePacks behaviourPacks : List (String × String))
  | resourcePackClientResponse (response : Nat) (packsToDownload : List String)
  | resourcePackDataInfo (uuid : String) (dataChunkSize chunkCount size : Int)
  | resourcePackChunkRequest (uuid : String) (chunkIndex : Int)
  | resourcePackChunkData (uuid : String) (chunkIndex dataOffset : Int) (data : List Nat)
  | requestChunkRadius
  | startGame
  | unknown (idNum : Nat)
deriving DecidableEq, Repr

/-- Packet ID of each packet, as the external packet pool assigns it
(the `unknown` constructor stands for any packet ID outside the
modelled catalogue). -/
def Packet.id : Packet → Nat
  | .login .. => IDLogin
  | .playStatus _ => IDPlayStatus
  | .serverToClientHandshake _ => IDServerToClientHandshake
  | .clientToServerHandshake => IDClientToServerHandshake
  | .disconnect _ => IDDisconnect
  | .resourcePacksInfo .. => IDResourcePacksInfo
  | .resourcePackStack .. => IDResourcePackStack
  | .resourcePackClientResponse .. => IDResourcePackClientResponse
  | .resourcePackDataInfo .. => IDResourcePackDataInfo
  | .resourcePackChunkRequest .. => IDResourcePackChunkRequest
  | .resourcePackChunkData .. => IDResourcePackChunkData
  | .requestChunkRadius => IDRequestChunkRadius
  | .startGame => IDStartGame
  | .unknown n => n

/-- An element of the flush buffer `bufferedSend`: either the encoding
of a packet written through WritePacket (kept symbolic, as marshaling
is external) or a raw byte slice written through Write. -/
inductive Out where
  | pk (p : Packet)
  | raw (b : List Nat)
deriving DecidableEq, Repr

/-- The Conn state: the fields of the Go struct that the handshake
engine and the claims touch. Channels become explicit state: `packets`
is the inbound queue (at decoded granularity), `connected` and `closed`
are the one-shot signals, `encKeyInput` records the byte string fed to
the external SHA-256 when encryption was enabled. -/
structure Conn where
  loggedIn : Bool
  expectedIDs : List Nat
  packets : List Packet
  bufferedSend : List Out
  sent : List Out
  resourcePacks : List Pack
  packQueue : Option PackQueue
  identityData : IdentityData
  clientData : ClientData
  salt : List Nat
  privateKeyD : Nat
  texturePacksRequired : Bool
  connected : Bool
  closed : Bool
  encKeyInput : Option (List Nat)
deriving DecidableEq, Repr

/-- WritePacket: header plus marshalled payload are appended to the
flush buffer (the marshalling itself is external, so the packet is kept
symbolic; header writes to a bytes.Buffer cannot fail). -/
def writePk (c : Conn) (p : Packet) : Conn :=
  { c with bufferedSend := c.bufferedSend ++ [Out.pk p] }

/-- Write (conn.go lines 218-224): appends the raw slice to
`bufferedSend` under the send mutex and returns its length with a nil
error. -/
def connWrite (c : Conn) (b : List Nat) : Conn × Nat × Option String :=
  ({ c with bufferedSend := c.bufferedSend ++ [Out.raw b] }, b.length, none)

/-- Flush: hands the accumulated buffer to the external encoder (the
handed-over slices are recorded in `sent`) and clears it. -/
def flushConn (c : Conn) : Conn :=
  { c with sent := c.sent ++ c.bufferedSend, bufferedSend := [] }

/-- All output the connection has produced: what was already flushed to
the encoder followed by what still sits in the flush buffer. -/
def outputs (c : Conn) : List Out := c.sent ++ c.bufferedSend

/-- Close (conn.go lines 262-270): a no-op when the close latch is
already filled; otherwise flushes and signals close (the external
transport close is modelled as succeeding). -/
def closeConn (c : Conn) : Conn :=
  if c.closed then c else { (flushConn c) with closed := true }

/-- Read (conn.go lines 229-242), viewed at the byte level of the
inbound payload queue: with a payload available, a buffer shorter than
the payload yields zero bytes and an error, a sufficient buffer copies
the payload; in both cases the payload has been taken off the queue.
The empty-queue case is where the Go select blocks (or takes the
deadline or close branch), so it is not represented by data. -/
def connRead : List (List Nat) → Nat → List (List Nat) × Nat × Option String
  | [], _ => ([], 0, none)
  | data :: rest, bufLen =>
    if bufLen < data.length then
      (rest, 0, some "error reading data: A message sent on a Minecraft socket was larger than the buffer used to receive the message into")
    else
      (rest, data.length, none)

/-- Go time.Time, reduced to its wall-clock reading in nanoseconds
since the year-1 zero value; the zero value reads 0 and every real
clock reading is positive. -/
structure GoTime where
  wall : Int
deriving DecidableEq, Repr

/-- Go's t.Before(u) on wall clocks. -/
def GoTime.before (a b : GoTime) : Bool := a.wall < b.wall

/-- The zero time.Time value. -/
def timeZero : GoTime := ⟨0⟩

/-- One hour in nanoseconds. -/
def hourNs : Int := 3600 * 1000000000

/-- SetReadDeadline (conn.go lines 290-303): rejects times before now
leaving the current deadline untouched; otherwise arms a timer, the
zero time mapping to a deadline one million hours out. The deadline is
the absolute firing instant of the time.After timer. -/
def setReadDeadline (now t : GoTime) (cur : Int) : Int × Option String :=
  if t.before now then
    (cur, some "error setting read deadline: time passed is before time.Now()")
  else if t = timeZero then
    (now.wall + 1000000 * hourNs, none)
  else
    (now.wall + (t.wall - now.wall), none)

/-- SetDeadline (conn.go lines 284-286): delegates to SetReadDeadline. -/
def setDeadline (now t : GoTime) (cur : Int) : Int × Option String :=
  setReadDeadline now t cur

/-- SetWriteDeadline (conn.go lines 306-308): a stub that always
returns nil and changes nothing. -/
def setWriteDeadline (_t : GoTime) : Option String := none

/-- Big-endian minimal byte encoding of a natural number, as Go's
big.Int Bytes method produces (empty for zero). -/
def natToBytes (n : Nat) : List Nat :=
  if h : n = 0 then [] else natToBytes (n / 256) ++ [n % 256]
termination_by n
decreasing_by exact Nat.div_lt_self (Nat.pos_of_ne_zero h) (by decide)

/-- Modulus of the executable stand-in for the external P-384 curve
group: scalar multiplication is modelled as modular exponentiation,
which has the same algebraic shape (a commutative one-way scalar
action) while staying computable. -/
def curveModulus : Nat := 7919

/-- Generator of the stand-in group. -/
def curveGen : Nat := 7

/-- The X coordinate of Curve.ScalarMult(P, d) in the stand-in group. -/
def scalarMultX (P d : Nat) : Nat := P ^ d % curveModulus

/-- Public key derived from a private scalar in the stand-in group. -/
def pubOf (d : Nat) : Nat := curveGen ^ d % curveModulus

/-- Key derivation on the client side (conn.go lines 484-486): the
bytes SHA-256 is applied to are the salt followed by the big-endian
X coordinate of ScalarMult(serverPublic, clientPrivate); SHA-256 itself
is external and passed in. -/
def clientHandshakeKey (hash : List Nat → List Nat) (salt : List Nat)
    (serverPub privD : Nat) : List Nat :=
  hash (salt ++ natToBytes (scalarMultX serverPub privD))

/-- Key derivation on the server side (conn.go lines 800-802): the
bytes SHA-256 is applied to are the salt followed by the big-endian
X coordinate of ScalarMult(clientPublic, serverPrivate). -/
def serverEncryptionKey (hash : List Nat → List Nat) (salt : List Nat)
    (clientPub privD : Nat) : List Nat :=
  hash (salt ++ natToBytes (scalarMultX clientPub privD))

/-- Association-list lookup for the UUID-keyed pack maps. -/
def lookupA (m : List (String × DownloadingPack)) (k : String) :
    Option DownloadingPack :=
  (m.find? (fun e => e.1 == k)).map (fun e => e.2)

/-- Association-list delete (Go map delete). -/
def removeA (m : List (String × DownloadingPack)) (k : String) :
    List (String × DownloadingPack) :=
  m.filter (fun e => !(e.1 == k))

/-- Association-list insert-or-replace (Go map assignment; iteration
order of Go maps is unspecified, so the position is immaterial). -/
def insertA (m : List (String × DownloadingPack)) (k : String)
    (v : DownloadingPack) : List (String × DownloadingPack) :=
  (k, v) :: removeA m k

/-- Pack length (pack.Len): the length of its content. -/
def packLen (p : Pack) : Int := (p.content.length : Int)

/-- Modelled from the spec: chunk count of a pack, ceil(size / chunkSize). -/
def chunkCountOf (p : Pack) : Int :=
  (packLen p + packChunkSize - 1) / packChunkSize

/-- hasPack (conn.go lines 551-558): whether an owned resource pack
matches the UUID, version and behaviours flag. -/
def hasPack (c : Conn) (uuid version : String) (behaviours : Bool) : Bool :=
  c.resourcePacks.any fun p =>
    p.uuid == uuid && p.version == version && p.hasBehaviours == behaviours

/-- Modelled from the spec: resourcePackQueue.NextPack of the missing
resource_pack_queue.go — pops the next pack to serve, makes it the
current pack, resets the byte cursor, and yields the
ResourcePackDataInfo packet describing it (chunk size 512 KiB, chunk
count the ceiling of size over chunk size); reports false when no packs
remain. -/
def PackQueue.nextPack (q : PackQueue) : Option (Packet × PackQueue) :=
  match q.packs with
  | [] => none
  | p :: rest =>
    some (Packet.resourcePackDataInfo p.uuid packChunkSize (chunkCountOf p) (packLen p),
      { q with packs := rest, currentPack := some p, currentOffset := 0 })

/-- Modelled from the spec: resourcePackQueue.AllDownloaded — whether
no packs remain to be served. -/
def PackQueue.allDownloaded (q : PackQueue) : Bool := q.packs.isEmpty

/-- Modelled from the spec: resourcePackQueue.Request — looks up the
requested uuid_version tokens among the queued packs; the spec leaves
the filter semantics out of scope, so the model only validates that
every token names an owned pack, failing on the first that does not. -/
def PackQueue.request (q : PackQueue) (requested : List String) : Option String :=
  match requested.find? (fun s => !(q.packs.any fun p => p.uuid ++ "_" ++ p.version == s)) with
  | some s => some ("resource pack " ++ s ++ " not found")
  | none => none

/-- nextResourcePackDownload (conn.go lines 610-621): advance the queue
to the next pack, send its data info packet, and expect chunk requests
next. -/
def nextResourcePackDownload (c : Conn) : Conn × Option String :=
  match c.packQueue with
  | none => (c, some "nil pack queue")
  | some q =>
    match q.nextPack with
    | none => (c, some "no resource packs to download")
    | some (infoPk, q2) =>
      let c := { c with packQueue := some q2 }
      let c := writePk c infoPk
      ({ c with expectedIDs := [IDResourcePackChunkRequest] }, none)

/-- ResourcePacksInfo construction (conn.go lines 420-435): entries of
the owned packs split into behaviour and texture lists, with the
scripts flags mirrored. -/
def buildPacksInfo (required : Bool) (packs : List Pack) : Packet :=
  let anyScripts := packs.any fun p => p.hasScripts
  let entryOf := fun (p : Pack) =>
    { uuid := p.uuid, version := p.version, size := packLen p,
      entryHasScripts := p.hasScripts : PackEntry }
  let beh := (packs.filter fun p => p.hasBehaviours).map entryOf
  let tex := (packs.filter fun p => !p.hasBehaviours).map entryOf
  Packet.resourcePacksInfo required anyScripts tex beh

/-- ResourcePackStack construction (conn.go lines 583-593): the owned
packs listed by UUID and version, split by the behaviours flag. -/
def buildStack (required : Bool) (packs : List Pack) : Packet :=
  let beh := (packs.filter fun p => p.hasBehaviours).map fun p => (p.uuid, p.version)
  let tex := (packs.filter fun p => !p.hasBehaviours).map fun p => (p.uuid, p.version)
  Packet.resourcePackStack required tex beh

/-- The server's self-signed handshake JWT (conn.go lines 775-792),
as it will be read back by a client: a valid ES384 token over the
server's public key carrying the server's salt. -/
def serverJwt (c : Conn) : S2CJwt :=
  { headerFromErr := none, headerJsonErr := none, alg := "ES384",
    x5uKey := pubOf c.privateKeyD, x5uErr := none, verifyErr := none,
    payloadJsonErr := none, saltPresent := true, saltDecodeErr := none,
    salt := c.salt }

/-- enableEncryption (conn.go lines 774-809): send the handshake JWT,
flush, compute the shared secret from the client public key and the own
private key and record the SHA-256 input salt plus shared-secret bytes
(the cipher itself lives in the external encoder and decoder; the
external JWT marshalling of the own key is modelled as succeeding). -/
def enableEncryption (c : Conn) (clientPublicKey : Nat) : Conn × Option String :=
  let c := writePk c (Packet.serverToClientHandshake (serverJwt c))
  let c := flushConn c
  let keyInput := c.salt ++ natToBytes (scalarMultX clientPublicKey c.privateKeyD)
  ({ c with encKeyInput := some keyInput }, none)

/-- handleLogin (conn.go lines 372-410): expect the handshake response
next; on a protocol mismatch send the appropriate PlayStatus and close
(returning the close result, not an error); otherwise verify the
request, require the authenticated flag, decode and validate identity
and client data, and enable encryption. -/
def handleLogin (c : Conn) (clientProtocol : Int) (req : ConnectionRequest) :
    Conn × Option String :=
  let c := { c with expectedIDs := [IDClientToServerHandshake] }
  if clientProtocol ≠ currentProtocol then
    let status := if clientProtocol > currentProtocol then
      playStatusLoginFailedServer else playStatusLoginFailedClient
    let c := writePk c (Packet.playStatus status)
    (closeConn c, none)
  else
    match req.verifyErr with
    | some e => (c, some ("error verifying login request: " ++ e))
    | none =>
      if !req.verifyAuth then
        (c, some "connection was not authenticated to XBOX Live")
      else
        match req.decodeErr with
        | some e => (c, some ("error decoding login request: " ++ e))
        | none =>
          let c := { c with identityData := req.decodeIdentity,
                            clientData := req.decodeClient }
          match req.decodeIdentity.validateErr with
          | some e => (c, some ("invalid identity data: " ++ e))
          | none =>
            match req.decodeClient.validateErr with
            | some e => (c, some ("invalid client data: " ++ e))
            | none =>
              match enableEncryption c req.verifyKey with
              | (c2, some e) => (c2, some ("error enabling encryption: " ++ e))
              | (c2, none) => (c2, none)

/-- handleClientToServerHandshake (conn.go lines 413-441): expect the
pack client response next, send PlayStatus login success and the
ResourcePacksInfo built from the owned packs. -/
def handleClientToServerHandshake (c : Conn) : Conn × Option String :=
  let c := { c with expectedIDs := [IDResourcePackClientResponse] }
  let c := writePk c (Packet.playStatus playStatusLoginSuccess)
  let c := writePk c (buildPacksInfo c.texturePacksRequired c.resourcePacks)
  (c, none)

/-- handleServerToClientHandshake (conn.go lines 446-494): parse and
check the JWT header, require alg ES384, parse the x5u key, verify the
signature, parse the payload, extract and decode the salt, derive the
shared key input and respond with an empty ClientToServerHandshake. -/
def handleServerToClientHandshake (c : Conn) (j : S2CJwt) : Conn × Option String :=
  match j.headerFromErr with
  | some e => (c, some ("error reading ServerToClientHandshake JWT header: " ++ e))
  | none =>
  match j.headerJsonErr with
  | some e => (c, some ("error parsing ServerToClientHandshake JWT header JSON: " ++ e))
  | none =>
  if j.alg ≠ "ES384" then
    (c, some ("ServerToClientHandshake JWT header had unexpected alg: expected ES384, got " ++ j.alg))
  else
  match j.x5uErr with
  | some e => (c, some ("error parsing ServerToClientHandshake header x5u public pubKey: " ++ e))
  | none =>
  match j.verifyErr with
  | some e => (c, some ("error verifying ServerToClientHandshake JWT: " ++ e))
  | none =>
  match j.payloadJsonErr with
  | some e => (c, some ("error parsing ServerToClientHandshake JWT payload JSON: " ++ e))
  | none =>
  if !j.saltPresent then
    (c, some "ServerToClientHandshake JWT payload contained no salt")
  else
  match j.saltDecodeErr with
  | some e => (c, some ("error base64 decoding ServerToClientHandshake salt: " ++ e))
  | none =>
    let keyInput := j.salt ++ natToBytes (scalarMultX j.x5uKey c.privateKeyD)
    let c := { c with encKeyInput := some keyInput }
    (writePk c Packet.clientToServerHandshake, none)

/-- downloadingPack record as handleResourcePacksInfo creates it for an
advertised pack entry: declared size, empty buffer, fresh fragment
channel; chunk size and expected index are the zero values. -/
def freshDownload (e : PackEntry) : DownloadingPack :=
  { size := e.size, bufLen := 0, chunkSize := 0, expectedIndex := 0, frags := [] }

/-- handleResourcePacksInfo (conn.go lines 498-527): build the download
queue over the advertised packs, then either request the packs (tokens
uuid_version) expecting data info and chunk data, or report all packs
downloaded expecting the stack. -/
def handleResourcePacksInfo (c : Conn) (tex beh : List PackEntry) :
    Conn × Option String :=
  let q : PackQueue :=
    { packAmount := ((tex.length + beh.length : Nat) : Int), packs := [],
      currentPack := none, currentOffset := 0,
      downloadingPacks := (tex ++ beh).map (fun e => (e.uuid, freshDownload e)),
      awaitingPacks := [] }
  let c := { c with packQueue := some q }
  let packsToDownload := (tex ++ beh).map fun e => e.uuid ++ "_" ++ e.version
  if packsToDownload ≠ [] then
    let c := { c with expectedIDs := [IDResourcePackDataInfo, IDResourcePackChunkData] }
    (writePk c (Packet.resourcePackClientResponse packResponseSendPacks packsToDownload), none)
  else
    let c := { c with expectedIDs := [IDResourcePackStack] }
    (writePk c (Packet.resourcePackClientResponse packResponseAllPacksDownloaded []), none)

/-- handleResourcePackStack (conn.go lines 531-547): every listed pack
must be among the downloaded packs (first missing one is fatal); then
signal connected, set the logged-in latch and respond completed. -/
def handleResourcePackStack (c : Conn) (tex beh : List (String × String)) :
    Conn × Option String :=
  match tex.find? (fun e => !(hasPack c e.1 e.2 false)) with
  | some e => (c, some ("texture pack uuid=" ++ e.1 ++ " version=" ++ e.2 ++ " not downloaded"))
  | none =>
  match beh.find? (fun e => !(hasPack c e.1 e.2 true)) with
  | some e => (c, some ("behaviour pack uuid=" ++ e.1 ++ " version=" ++ e.2 ++ " not downloaded"))
  | none =>
    let c := { c with connected := true }
    let c := { c with loggedIn := true }
    (writePk c (Packet.resourcePackClientResponse packResponseCompleted []), none)

/-- handleResourcePackClientResponse (conn.go lines 565-606): refused
closes; send-packs builds a serving queue over the owned packs, has it
validate the request and starts the first download; all-packs-
downloaded sends the stack; completed sets the logged-in latch; any
other response is an error. -/
def handleResourcePackClientResponse (c : Conn) (response : Nat)
    (packsToDownload : List String) : Conn × Option String :=
  if response = packResponseRefused then
    (closeConn c, none)
  else if response = packResponseSendPacks then
    let q : PackQueue :=
      { packAmount := 0, packs := c.resourcePacks, currentPack := none,
        currentOffset := 0, downloadingPacks := [], awaitingPacks := [] }
    let c := { c with packQueue := some q }
    match q.request packsToDownload with
    | some e => (c, some ("error looking up resource packs to download: " ++ e))
    | none => nextResourcePackDownload c
  else if response = packResponseAllPacksDownloaded then
    (writePk c (buildStack c.texturePacksRequired c.resourcePacks), none)
  else if response = packResponseCompleted then
    ({ c with loggedIn := true }, none)
  else
    (c, some "unknown resource pack client response")

/-- handleResourcePackDataInfo, synchronous part (conn.go lines
625-644): the pack must be among the downloading packs with a matching
size; governance moves to the awaiting map with the declared chunk
size. The chunk-request fetch loop the source spawns concurrently is
not part of this handler's synchronous result. -/
def handleResourcePackDataInfo (c : Conn) (uuid : String)
    (dataChunkSize _chunkCount size : Int) : Conn × Option String :=
  match c.packQueue with
  | none => (c, some "nil pack queue")
  | some q =>
    match lookupA q.downloadingPacks uuid with
    | none => (c, some ("unknown pack to download with UUID " ++ uuid))
    | some dp =>
      if dp.size ≠ size then
        (c, some ("pack " ++ uuid ++ " had a different size in the ResourcePacksInfo packet than the ResourcePackDataInfo packet"))
      else
        let dp2 := { dp with chunkSize := dataChunkSize }
        let q2 := { q with downloadingPacks := removeA q.downloadingPacks uuid,
                           awaitingPacks := insertA q.awaitingPacks uuid dp2 }
        ({ c with packQueue := some q2 }, none)

/-- handleResourcePackChunkData (conn.go lines 677-696): the pack must
be awaiting chunks; a payload shorter or longer than the declared chunk
size is fatal unless this is the last chunk (buffered plus chunk size
reaching the declared size); the chunk index must equal the expected
index, which then advances, and the data is handed to the fetcher. -/
def handleResourcePackChunkData (c : Conn) (uuid : String) (chunkIndex : Int)
    (data : List Nat) : Conn × Option String :=
  match c.packQueue with
  | none => (c, some "nil pack queue")
  | some q =>
    match lookupA q.awaitingPacks uuid with
    | none => (c, some "resource pack chunk data for resource pack that was not being downloaded")
    | some dp =>
      let lastData : Bool := (dp.bufLen : Int) + dp.chunkSize ≥ dp.size
      if !lastData && ((data.length : Int) ≠ dp.chunkSize : Bool) then
        (c, some ("resource pack chunk data had a length of " ++ toString data.length ++ ", but expected " ++ toString dp.chunkSize))
      else if chunkIndex ≠ dp.expectedIndex then
        (c, some ("resource pack chunk data had chunk index " ++ toString chunkIndex ++ ", but expected " ++ toString dp.expectedIndex))
      else
        let dp2 := { dp with expectedIndex := dp.expectedIndex + 1,
                             frags := dp.frags ++ [data] }
        ({ c with packQueue := some { q with awaitingPacks := insertA q.awaitingPacks uuid dp2 } }, none)

/-- ReadAt of a pack's content (the resource package is external;
bytes.Reader semantics: read as many of the requested bytes as exist at
the offset, reporting EOF exactly when fewer than requested exist). -/
def packReadAt (content : List Nat) (off : Int) : List Nat :=
  (content.drop off.toNat).take packChunkSize.toNat

/-- handleResourcePackChunkRequest (conn.go lines 700-737): the request
must name the current pack and the expected offset (chunk index times
chunk size); the offset then advances by a full chunk regardless of how
much the read returns; a short read (EOF) trims the response data and,
after the response is written, either starts the next pack download or
expects the final client response when all packs are served. -/
def handleResourcePackChunkRequest (c : Conn) (uuid : String) (chunkIndex : Int) :
    Conn × Option String :=
  match c.packQueue with
  | none => (c, some "nil pack queue")
  | some q =>
    match q.currentPack with
    | none => (c, some "nil current pack")
    | some current =>
      if current.uuid ≠ uuid then
        (c, some ("resource pack chunk request had unexpected UUID: expected " ++ current.uuid ++ ", but got " ++ uuid))
      else if q.currentOffset ≠ chunkIndex * packChunkSize then
        (c, some "resource pack chunk request had unexpected chunk index")
      else
        let dataOffset := q.currentOffset
        let q2 := { q with currentOffset := q.currentOffset + packChunkSize }
        let c2 := { c with packQueue := some q2 }
        let data := packReadAt current.content dataOffset
        let c3 := writePk c2 (Packet.resourcePackChunkData uuid chunkIndex dataOffset data)
        if data.length < packChunkSize.toNat then
          if q2.allDownloaded then
            ({ c3 with expectedIDs := [IDResourcePackClientResponse] }, none)
          else
            ((nextResourcePackDownload c3).1, none)
        else
          (c3, none)

/-- handlePlayStatus (conn.go lines 741-770): login success expects the
packs info next; each failure status closes with its canonical error;
player spawn is tolerated; any other status is an error. -/
def handlePlayStatus (c : Conn) (status : Int) : Conn × Option String :=
  if status = playStatusLoginSuccess then
    ({ c with expectedIDs := [IDResourcePacksInfo] }, none)
  else if status = playStatusLoginFailedClient then
    (closeConn c, some "client outdated")
  else if status = playStatusLoginFailedServer then
    (closeConn c, some "server outdated")
  else if status = playStatusPlayerSpawn then
    (c, none)
  else if status = playStatusLoginFailedInvalidTenant then
    (closeConn c, some "invalid edu edition game owner")
  else if status = playStatusLoginFailedVanillaEdu then
    (closeConn c, some "cannot join an edu edition game on vanilla")
  else if status = playStatusLoginFailedEduVanilla then
    (closeConn c, some "cannot join a vanilla game on edu edition")
  else if status = playStatusLoginFailedServerFull then
    (closeConn c, some "server full")
  else
    (c, some "unknown play status in PlayStatus packet")

/-- The expected-ID membership loop of handleIncoming (conn.go lines
319-327): a packet is taken up when its ID is listed or when it is a
Disconnect — the Disconnect escape sits inside the loop over the
expected IDs. -/
def expectedMatch (ids : List Nat) (pid : Nat) : Bool :=
  ids.any fun i => i == pid || pid == IDDisconnect

/-- handleIncoming (conn.go lines 312-368): enqueue the payload; once
logged in nothing more happens (the user reads it); before that the
payload is read back and, when its ID is expected (or it is a
Disconnect), dispatched to its handler — Disconnect closes and surfaces
the reason, the TODO and unknown cases fall through silently. -/
def handleIncoming (c : Conn) (pk : Packet) : Conn × Option String :=
  if c.loggedIn then
    ({ c with packets := c.packets ++ [pk] }, none)
  else if !expectedMatch c.expectedIDs pk.id then
    (c, none)
  else
    match pk with
    | .login proto req => handleLogin c proto req
    | .clientToServerHandshake => handleClientToServerHandshake c
    | .resourcePackClientResponse resp packs => handleResourcePackClientResponse c resp packs
    | .resourcePackChunkRequest uuid idx => handleResourcePackChunkRequest c uuid idx
    | .requestChunkRadius => (c, none)
    | .serverToClientHandshake j => handleServerToClientHandshake c j
    | .playStatus s => handlePlayStatus c s
    | .resourcePacksInfo _ _ tex beh => handleResourcePacksInfo c tex beh
    | .resourcePackDataInfo uuid csize ccount size => handleResourcePackDataInfo c uuid csize ccount size
    | .resourcePackChunkData uuid idx _ data => handleResourcePackChunkData c uuid idx data
    | .resourcePackStack _ tex beh => handleResourcePackStack c tex beh
    | .startGame => (c, none)
    | .disconnect msg => (closeConn c, some ("Disconnected: " ++ msg))
    | .unknown _ => (c, none)

/-- newConn (conn.go lines 85-124): the initial connection state, with
the login packet as the first expected ID. -/
def newConn (key : Nat) (salt : List Nat) : Conn :=
  { loggedIn := false, expectedIDs := [IDLogin], packets := [],
    bufferedSend := [], sent := [], resourcePacks := [], packQueue := none,
    identityData := { uuid := "", xuid := "", displayName := "", validateErr := none },
    clientData := { validateErr := none },
    salt := salt, privateKeyD := key, texturePacksRequired := false,
    connected := false, closed := false, encKeyInput := none }

/-- Closing preserves the logged-in latch. -/
lemma closeConn_loggedIn (c : Conn) : (closeConn c).loggedIn = c.loggedIn := by
  unfold closeConn flushConn
  split <;> rfl

/-- Closing preserves the expected-ID set. -/
lemma closeConn_expectedIDs (c : Conn) : (closeConn c).expectedIDs = c.expectedIDs := by
  unfold closeConn flushConn
  split <;> rfl

/-- Closing leaves the connection closed. -/
lemma closeConn_closed (c : Conn) : (closeConn c).closed = true := by
  unfold closeConn flushConn
  split
  case isTrue h => exact h
  case isFalse h => rfl

/-- Every slice ever buffered survives a close: outputs of the closed
connection extend the outputs before. -/
lemma outputs_closeConn (c : Conn) : outputs (closeConn c) = outputs c := by
  unfold closeConn flushConn outputs
  split <;> simp

/-- Writing a packet appends it to the outputs. -/
lemma outputs_writePk (c : Conn) (p : Packet) :
    outputs (writePk c p) = outputs c ++ [Out.pk p] := by
  unfold writePk outputs
  simp

/-- C9: for every byte slice b, Write(b) appends b to the flush buffer
and returns its length with a nil error; this holds for every
connection state, closed ones included, and the operation is a pure
buffer append, never touching the transport. -/
theorem write_appends_never_errors (c : Conn) (b : List Nat) :
    (connWrite c b).2.1 = b.length ∧
    (connWrite c b).2.2 = none ∧
    (connWrite c b).1.bufferedSend = c.bufferedSend ++ [Out.raw b] ∧
    (connWrite c b).1.sent = c.sent ∧
    (connWrite c b).1.closed = c.closed ∧
    (connWrite c b).1.loggedIn = c.loggedIn :=
  ⟨rfl, rfl, rfl, rfl, rfl, rfl⟩

/-- C10: SetDeadline agrees with SetReadDeadline on every input, and
SetWriteDeadline is a stub returning nil for every time. -/
theorem setDeadline_is_setReadDeadline (now t : GoTime) (cur : Int) :
    setDeadline now t cur = setReadDeadline now t cur ∧
    setWriteDeadline t = none :=
  ⟨rfl, rfl⟩

/-- C2: at any real clock instant (wall reading positive, as every
actual time.Now() is), SetReadDeadline with the zero time.Time hits the
t.Before(now) rejection — the zero value reads before now — so it
returns the deadline-in-the-past error and leaves the current deadline
untouched; the far-future clearing branch is unreachable, contradicting
the method's own documentation that the zero time clears the deadline. -/
theorem setReadDeadline_zero_time_rejected (now : GoTime) (cur : Int)
    (h : 0 < now.wall) :
    setReadDeadline now timeZero cur =
      (cur, some "error setting read deadline: time passed is before time.Now()") := by
  unfold setReadDeadline GoTime.before timeZero
  simp only [decide_eq_true_eq]
  rw [if_pos h]

/-- Witness for the C2 theorem at the concrete instant 1 ns. -/
theorem setReadDeadline_zero_time_rejected_witness :
    setReadDeadline ⟨1⟩ timeZero 42 =
      (42, some "error setting read deadline: time passed is before time.Now()") :=
  setReadDeadline_zero_time_rejected ⟨1⟩ 42 (by decide)

/-- C3: with any hash function in the SHA-256 position, any salt, and
key pairs derived from private scalars a (client) and b (server), the
server's key computed in enableEncryption from the client's public key
equals the client's key computed in handleServerToClientHandshake from
the server's public key: both hash the salt followed by the X
coordinate of the commuting scalar product. -/
theorem derived_keys_agree (hash : List Nat → List Nat) (salt : List Nat)
    (a b : Nat) :
    serverEncryptionKey hash salt (pubOf a) b =
      clientHandshakeKey hash salt (pubOf b) a := by
  unfold serverEncryptionKey clientHandshakeKey scalarMultX pubOf
  rw [← Nat.pow_mod, ← Nat.pow_mod, ← pow_mul, ← pow_mul, Nat.mul_comm]

/-- C8: a Read into a buffer shorter than the next payload returns zero
bytes and the larger-than-buffer error while still consuming the
payload, so a retry with a large enough buffer returns the following
payload, not the one that failed. -/
theorem read_short_buffer_consumes (data : List Nat) (rest : List (List Nat))
    (bufLen : Nat) (h : bufLen < data.length) :
    connRead (data :: rest) bufLen =
      (rest, 0, some "error reading data: A message sent on a Minecraft socket was larger than the buffer used to receive the message into") ∧
    (∀ d2 r2 bufLen2, rest = d2 :: r2 → d2.length ≤ bufLen2 →
      connRead rest bufLen2 = (r2, d2.length, none)) := by
  constructor
  · simp only [connRead]
    rw [if_pos h]
  · intro d2 r2 bufLen2 hrest hlen
    subst hrest
    simp only [connRead]
    rw [if_neg (Nat.not_lt.mpr hlen)]

/-- Witness for the C8 theorem: a 3-byte payload against a 2-byte
buffer, followed by a successful retry on the next payload. -/
theorem read_short_buffer_consumes_witness :
    connRead [[7, 8, 9], [4]] 2 =
      ([[4]], 0, some "error reading data: A message sent on a Minecraft socket was larger than the buffer used to receive the message into") ∧
    connRead [[4]] 2 = ([], 1, none) := by
  have h := read_short_buffer_consumes [7, 8, 9] [[4]] 2 (by decide)
  exact ⟨h.1, h.2 [4] [] 2 rfl (by decide)⟩

/-- A concrete fresh server connection for the login counterexample. -/
def cxConn : Conn := newConn 0 [1, 2, 3]

/-- A concrete connection request whose JWT chain fails verification. -/
def cxRequest : ConnectionRequest :=
  { verifyKey := 0, verifyAuth := false, verifyErr := some "invalid JWT chain",
    decodeIdentity := { uuid := "", xuid := "", displayName := "", validateErr := none },
    decodeClient := { validateErr := none }, decodeErr := none }

/-- C1 counterexample: a Login packet whose JWT chain fails
verification and whose protocol is newer than the server's is answered
with PlayStatus LoginFailedServer and a close, and the handler returns
no error at all — the verification error the claim promises never
surfaces, because the protocol comparison runs before verification. -/
theorem login_mismatch_skips_verification :
    cxRequest.verifyErr = some "invalid JWT chain" ∧
    (handleLogin cxConn (currentProtocol + 1) cxRequest).2 = none ∧
    Out.pk (Packet.playStatus playStatusLoginFailedServer) ∈
      outputs (handleLogin cxConn (currentProtocol + 1) cxRequest).1 ∧
    (handleLogin cxConn (currentProtocol + 1) cxRequest).1.closed = true := by
  decide

/-- C1 as amended: handleLogin compares the protocol version first —
on a mismatch it sends the appropriate PlayStatus and closes without
returning an error, never consulting the JWT chain — and only when the
protocol matches does it verify the chain, returning the verification
error on failure and the not-authenticated error when the flag is
false. -/
theorem login_protocol_checked_first (c : Conn) (proto : Int)
    (req : ConnectionRequest) (e : String) :
    (proto ≠ currentProtocol →
      (handleLogin c proto req).2 = none ∧
      (handleLogin c proto req).1.closed = true ∧
      Out.pk (Packet.playStatus (if proto > currentProtocol then
          playStatusLoginFailedServer else playStatusLoginFailedClient)) ∈
        outputs (handleLogin c proto req).1) ∧
    (proto = currentProtocol → req.verifyErr = some e →
      handleLogin c proto req =
        ({ c with expectedIDs := [IDClientToServerHandshake] },
         some ("error verifying login request: " ++ e))) ∧
    (proto = currentProtocol → req.verifyErr = none → req.verifyAuth = false →
      (handleLogin c proto req).2 =
        some "connection was not authenticated to XBOX Live") := by
  refine ⟨?_, ?_, ?_⟩
  · intro hne
    unfold handleLogin
    rw [if_pos hne]
    refine ⟨rfl, closeConn_closed _, ?_⟩
    rw [outputs_closeConn, outputs_writePk]
    simp
  · intro heq hverr
    unfold handleLogin
    rw [if_neg (by simp [heq])]
    rw [hverr]
  · intro heq hverr hauth
    unfold handleLogin
    rw [if_neg (by simp [heq])]
    rw [hverr, hauth]
    rfl

/-- Witness for the amended C1 theorem: the mismatch branch at protocol
one above the server's, and the verification-failure branch at the
matching protocol. -/
theorem login_protocol_checked_first_witness :
    ((handleLogin cxConn (currentProtocol + 1) cxRequest).2 = none ∧
      (handleLogin cxConn (currentProtocol + 1) cxRequest).1.closed = true ∧
      Out.pk (Packet.playStatus (if currentProtocol + 1 > currentProtocol then
          playStatusLoginFailedServer else playStatusLoginFailedClient)) ∈
        outputs (handleLogin cxConn (currentProtocol + 1) cxRequest).1) ∧
    handleLogin cxConn currentProtocol cxRequest =
      ({ cxConn with expectedIDs := [IDClientToServerHandshake] },
       some ("error verifying login request: " ++ "invalid JWT chain")) := by
  refine ⟨(login_protocol_checked_first cxConn (currentProtocol + 1) cxRequest "invalid JWT chain").1 (by decide),
    (login_protocol_checked_first cxConn currentProtocol cxRequest "invalid JWT chain").2.1 rfl (by decide)⟩

/-- Insert-or-replace followed by lookup at the same key yields the
inserted record. -/
lemma lookupA_insertA (m : List (String × DownloadingPack)) (k : String)
    (v : DownloadingPack) : lookupA (insertA m k v) k = some v := by
  simp [lookupA, insertA]

/-- C4: for a ResourcePackChunkData packet on a pack that is awaiting
chunks, acceptance (no error) forces the chunk index to equal the
entry's expected index before handling, advances the expected index by
exactly one (and hands the payload to the fetcher), and — unless this
is the last chunk, i.e. buffered bytes plus chunk size reach the
declared size — forces the payload length to equal the declared chunk
size; a wrong length on a non-final chunk or a wrong index is an error
that leaves the connection unchanged. -/
theorem chunk_data_index_invariant (c : Conn) (q : PackQueue)
    (dp : DownloadingPack) (uuid : String) (idx : Int) (data : List Nat)
    (hq : c.packQueue = some q) (hdp : lookupA q.awaitingPacks uuid = some dp) :
    ((handleResourcePackChunkData c uuid idx data).2 = none →
      idx = dp.expectedIndex ∧
      (∃ q2, (handleResourcePackChunkData c uuid idx data).1.packQueue = some q2 ∧
        lookupA q2.awaitingPacks uuid =
          some { dp with expectedIndex := dp.expectedIndex + 1,
                         frags := dp.frags ++ [data] }) ∧
      (¬((dp.bufLen : Int) + dp.chunkSize ≥ dp.size) →
        (data.length : Int) = dp.chunkSize)) ∧
    ((¬((dp.bufLen : Int) + dp.chunkSize ≥ dp.size) ∧
        (data.length : Int) ≠ dp.chunkSize) →
      (handleResourcePackChunkData c uuid idx data).1 = c ∧
      (handleResourcePackChunkData c uuid idx data).2 ≠ none) ∧
    (idx ≠ dp.expectedIndex →
      (handleResourcePackChunkData c uuid idx data).2 ≠ none) := by
  simp only [handleResourcePackChunkData, hq, hdp]
  refine ⟨?_, ?_, ?_⟩
  · split
    · intro hok
      simp at hok
    · split
      · intro hok
        simp at hok
      · rename_i hlen hidx
        intro _
        refine ⟨not_not.mp hidx, ⟨_, rfl, lookupA_insertA _ _ _⟩, ?_⟩
        intro hnl
        by_cases hlencs : (data.length : Int) = dp.chunkSize
        · exact hlencs
        · exact absurd (by simp [hnl, hlencs]) hlen
  · rintro ⟨hnl, hne⟩
    rw [if_pos (show _ = true by simp [hnl, hne])]
    exact ⟨rfl, by simp⟩
  · intro hne
    split <;> simp_all

/-- A concrete awaiting download record: 5 declared bytes, chunk size
3, nothing buffered yet, first chunk expected. -/
def c4dp : DownloadingPack :=
  { size := 5, bufLen := 0, chunkSize := 3, expectedIndex := 0, frags := [] }

/-- A concrete pack queue with one awaiting pack under UUID u. -/
def c4q : PackQueue :=
  { packAmount := 1, packs := [], currentPack := none, currentOffset := 0,
    downloadingPacks := [], awaitingPacks := [("u", c4dp)] }

/-- A concrete client connection downloading that pack. -/
def c4c : Conn := { newConn 0 [] with packQueue := some c4q }

/-- Witness for the C4 theorem: chunk 0 of three bytes is accepted, the
expected index advances to 1, and the non-final-chunk length equation
holds. -/
theorem chunk_data_index_invariant_witness :
    (0 : Int) = c4dp.expectedIndex ∧
    (∃ q2, (handleResourcePackChunkData c4c "u" 0 [9, 9, 9]).1.packQueue = some q2 ∧
      lookupA q2.awaitingPacks "u" =
        some { c4dp with expectedIndex := c4dp.expectedIndex + 1,
                         frags := c4dp.frags ++ [[9, 9, 9]] }) ∧
    (¬((c4dp.bufLen : Int) + c4dp.chunkSize ≥ c4dp.size) →
      (([9, 9, 9] : List Nat).length : Int) = c4dp.chunkSize) :=
  (chunk_data_index_invariant c4c c4q c4dp "u" 0 [9, 9, 9] rfl rfl).1 (by decide)

/-- Reduction of nextResourcePackDownload when a pack remains: it pops
the pack, sends its data info and expects chunk requests. -/
lemma nextResourcePackDownload_cons (c : Conn) (q : PackQueue) (p : Pack)
    (rest : List Pack) (hq : c.packQueue = some q) (hp : q.packs = p :: rest) :
    nextResourcePackDownload c =
      ({ (writePk
            ({ c with
                packQueue := some ({ q with
                  packs := rest, currentPack := some p,
                  currentOffset := 0 }) })
            (Packet.resourcePackDataInfo p.uuid packChunkSize (chunkCountOf p)
              (packLen p))) with expectedIDs := [IDResourcePackChunkRequest] },
       none) := by
  simp only [nextResourcePackDownload, hq, PackQueue.nextPack, hp]

/-- C5: a ResourcePackChunkRequest fails fatally, leaving the state
untouched, unless it names the current pack's UUID and its chunk index
times 524288 equals the current offset; on success the chunk-data
response carries the bytes actually available at that offset (trimmed
on a short read) and the offset advances by the full chunk size — on a
full read the queue only advanced its offset, on a short read the
server afterwards either moves to the next pack download (more packs
remaining: its data info is sent and chunk requests are expected) or
expects the final ResourcePackClientResponse (all packs served). -/
theorem chunk_request_spec (c : Conn) (q : PackQueue) (cur : Pack)
    (uuid : String) (idx : Int)
    (hq : c.packQueue = some q) (hcur : q.currentPack = some cur) :
    ((cur.uuid ≠ uuid ∨ q.currentOffset ≠ idx * packChunkSize) →
      (handleResourcePackChunkRequest c uuid idx).1 = c ∧
      (handleResourcePackChunkRequest c uuid idx).2 ≠ none) ∧
    (cur.uuid = uuid → q.currentOffset = idx * packChunkSize →
      (handleResourcePackChunkRequest c uuid idx).2 = none ∧
      Out.pk (Packet.resourcePackChunkData uuid idx q.currentOffset
          (packReadAt cur.content q.currentOffset)) ∈
        outputs (handleResourcePackChunkRequest c uuid idx).1 ∧
      ((packReadAt cur.content q.currentOffset).length = packChunkSize.toNat →
        (handleResourcePackChunkRequest c uuid idx).1.packQueue =
          some { q with currentOffset := q.currentOffset + packChunkSize } ∧
        (handleResourcePackChunkRequest c uuid idx).1.expectedIDs = c.expectedIDs) ∧
      ((packReadAt cur.content q.currentOffset).length < packChunkSize.toNat →
        (q.packs = [] →
          (handleResourcePackChunkRequest c uuid idx).1.expectedIDs =
            [IDResourcePackClientResponse] ∧
          (handleResourcePackChunkRequest c uuid idx).1.packQueue =
            some { q with currentOffset := q.currentOffset + packChunkSize }) ∧
        (∀ p rest, q.packs = p :: rest →
          (handleResourcePackChunkRequest c uuid idx).1.expectedIDs =
            [IDResourcePackChunkRequest] ∧
          Out.pk (Packet.resourcePackDataInfo p.uuid packChunkSize
              (chunkCountOf p) (packLen p)) ∈
            outputs (handleResourcePackChunkRequest c uuid idx).1 ∧
          (handleResourcePackChunkRequest c uuid idx).1.packQueue =
            some { q with packs := rest, currentPack := some p,
                          currentOffset := 0 }))) := by
  simp only [handleResourcePackChunkRequest, hq, hcur]
  constructor
  · intro hbad
    by_cases hu : cur.uuid ≠ uuid
    · rw [if_pos hu]
      exact ⟨rfl, by simp⟩
    · rcases hbad with hbad | hbad
      · exact absurd hbad hu
      · rw [if_neg hu, if_pos hbad]
        exact ⟨rfl, by simp⟩
  · intro hu ho
    rw [if_neg (by simp [hu]), if_neg (by simp [ho])]
    refine ⟨?_, ?_, ?_, ?_⟩
    · split
      · split <;> rfl
      · rfl
    · split
      · split
        · simp [outputs, writePk]
        · rcases hpacks : q.packs with _ | ⟨p, rest⟩ <;>
            simp [nextResourcePackDownload, PackQueue.nextPack, hpacks,
              outputs, writePk]
      · simp [outputs, writePk]
    · intro hfull
      split
      · omega
      · exact ⟨rfl, rfl⟩
    · intro hshort
      constructor
      · intro hpacks
        split
        · split
          · exact ⟨rfl, rfl⟩
          · rename_i hnd
            simp [PackQueue.allDownloaded, hpacks] at hnd
        · omega
      · intro p rest hpacks
        split
        · split
          · rename_i hd
            simp [PackQueue.allDownloaded, hpacks] at hd
          · rw [nextResourcePackDownload_cons _
              ({ q with currentPack := some cur,
                        currentOffset := q.currentOffset + packChunkSize })
              p rest rfl hpacks]
            refine ⟨rfl, ?_, rfl⟩
            simp [outputs, writePk]
        · omega

/-- A concrete three-byte pack being served. -/
def c5pack : Pack :=
  { uuid := "p1", version := "1.0.0", content := [1, 2, 3],
    hasBehaviours := false, hasScripts := false }

/-- A concrete serving queue: the three-byte pack is current, at offset
zero, and no further packs remain. -/
def c5q : PackQueue :=
  { packAmount := 1, packs := [], currentPack := some c5pack,
    currentOffset := 0, downloadingPacks := [], awaitingPacks := [] }

/-- A concrete server connection serving that pack. -/
def c5c : Conn := { newConn 0 [] with packQueue := some c5q }

/-- Witness for the C5 theorem: chunk request 0 on the three-byte pack
succeeds with a short read, and with no packs left the server expects
the final client response. -/
theorem chunk_request_spec_witness :
    (handleResourcePackChunkRequest c5c "p1" 0).2 = none ∧
    (handleResourcePackChunkRequest c5c "p1" 0).1.expectedIDs =
      [IDResourcePackClientResponse] := by
  have h := (chunk_request_spec c5c c5q c5pack "p1" 0 rfl rfl).2 rfl (by decide)
  exact ⟨h.1, ((h.2.2.2 (by decide)).1 rfl).1⟩

/-- handleLogin never touches the logged-in latch. -/
lemma handleLogin_loggedIn (c : Conn) (p : Int) (r : ConnectionRequest) :
    (handleLogin c p r).1.loggedIn = c.loggedIn := by
  simp only [handleLogin, enableEncryption, writePk, flushConn]
  repeat' split
  all_goals simp [closeConn_loggedIn, writePk]

/-- handleLogin always leaves the handshake response as the expected
packet. -/
lemma handleLogin_expectedIDs (c : Conn) (p : Int) (r : ConnectionRequest) :
    (handleLogin c p r).1.expectedIDs = [IDClientToServerHandshake] := by
  simp only [handleLogin, enableEncryption, writePk, flushConn]
  repeat' split
  all_goals simp [closeConn_expectedIDs, writePk]

/-- handleServerToClientHandshake never touches the logged-in latch. -/
lemma handleS2CH_loggedIn (c : Conn) (j : S2CJwt) :
    (handleServerToClientHandshake c j).1.loggedIn = c.loggedIn := by
  simp only [handleServerToClientHandshake, writePk]
  repeat' split
  all_goals rfl

/-- handleServerToClientHandshake never changes the expected IDs. -/
lemma handleS2CH_expectedIDs (c : Conn) (j : S2CJwt) :
    (handleServerToClientHandshake c j).1.expectedIDs = c.expectedIDs := by
  simp only [handleServerToClientHandshake, writePk]
  repeat' split
  all_goals rfl

/-- handleResourcePacksInfo never touches the logged-in latch. -/
lemma handlePacksInfo_loggedIn (c : Conn) (tex beh : List PackEntry) :
    (handleResourcePacksInfo c tex beh).1.loggedIn = c.loggedIn := by
  simp only [handleResourcePacksInfo, writePk]
  split <;> rfl

/-- handleResourcePacksInfo always leaves a nonempty expected set. -/
lemma handlePacksInfo_expectedIDs (c : Conn) (tex beh : List PackEntry) :
    (handleResourcePacksInfo c tex beh).1.expectedIDs ≠ [] := by
  simp only [handleResourcePacksInfo, writePk]
  split <;> simp

/-- handleResourcePackStack changes the expected IDs in no branch. -/
lemma handleStack_expectedIDs (c : Conn) (tex beh : List (String × String)) :
    (handleResourcePackStack c tex beh).1.expectedIDs = c.expectedIDs := by
  simp only [handleResourcePackStack, writePk]
  repeat' split
  all_goals rfl

/-- handleResourcePackDataInfo touches neither the latch nor the
expected IDs. -/
lemma handleDataInfo_loggedIn (c : Conn) (uuid : String) (cs cc sz : Int) :
    (handleResourcePackDataInfo c uuid cs cc sz).1.loggedIn = c.loggedIn := by
  simp only [handleResourcePackDataInfo]
  repeat' split
  all_goals rfl

/-- handleResourcePackDataInfo leaves the expected IDs unchanged. -/
lemma handleDataInfo_expectedIDs (c : Conn) (uuid : String) (cs cc sz : Int) :
    (handleResourcePackDataInfo c uuid cs cc sz).1.expectedIDs = c.expectedIDs := by
  simp only [handleResourcePackDataInfo]
  repeat' split
  all_goals rfl

/-- handleResourcePackChunkData never touches the logged-in latch. -/
lemma handleChunkData_loggedIn (c : Conn) (uuid : String) (idx : Int)
    (data : List Nat) :
    (handleResourcePackChunkData c uuid idx data).1.loggedIn = c.loggedIn := by
  simp only [handleResourcePackChunkData]
  repeat' split
  all_goals rfl

/-- handleResourcePackChunkData leaves the expected IDs unchanged. -/
lemma handleChunkData_expectedIDs (c : Conn) (uuid : String) (idx : Int)
    (data : List Nat) :
    (handleResourcePackChunkData c uuid idx data).1.expectedIDs = c.expectedIDs := by
  simp only [handleResourcePackChunkData]
  repeat' split
  all_goals rfl

/-- nextResourcePackDownload never touches the logged-in latch. -/
lemma nextDownload_loggedIn (c : Conn) :
    (nextResourcePackDownload c).1.loggedIn = c.loggedIn := by
  simp only [nextResourcePackDownload, PackQueue.nextPack, writePk]
  repeat' split
  all_goals rfl

/-- nextResourcePackDownload preserves nonemptiness of the expected
set: it either leaves it alone (failure) or sets it to the chunk
request. -/
lemma nextDownload_expectedIDs (c : Conn) (h : c.expectedIDs ≠ []) :
    (nextResourcePackDownload c).1.expectedIDs ≠ [] := by
  simp only [nextResourcePackDownload, PackQueue.nextPack, writePk]
  repeat' split
  all_goals simp_all

/-- handleResourcePackChunkRequest never touches the logged-in latch. -/
lemma handleChunkRequest_loggedIn (c : Conn) (uuid : String) (idx : Int) :
    (handleResourcePackChunkRequest c uuid idx).1.loggedIn = c.loggedIn := by
  simp only [handleResourcePackChunkRequest, writePk]
  repeat' split
  all_goals simp [nextDownload_loggedIn, writePk]

/-- handleResourcePackChunkRequest preserves nonemptiness of the
expected set. -/
lemma handleChunkRequest_expectedIDs (c : Conn) (uuid : String) (idx : Int)
    (h : c.expectedIDs ≠ []) :
    (handleResourcePackChunkRequest c uuid idx).1.expectedIDs ≠ [] := by
  simp only [handleResourcePackChunkRequest, writePk]
  repeat' split
  all_goals first
    | (apply nextDownload_expectedIDs; simp_all)
    | simp_all

/-- handleResourcePackClientResponse never clears a nonempty expected
set. -/
lemma handleClientResponse_expectedIDs (c : Conn) (resp : Nat)
    (ps : List String) (h : c.expectedIDs ≠ []) :
    (handleResourcePackClientResponse c resp ps).1.expectedIDs ≠ [] := by
  simp only [handleResourcePackClientResponse, writePk]
  repeat' split
  all_goals first
    | (apply nextDownload_expectedIDs; simp_all)
    | simp_all [closeConn_expectedIDs]

/-- handlePlayStatus never touches the logged-in latch. -/
lemma handlePlayStatus_loggedIn (c : Conn) (s : Int) :
    (handlePlayStatus c s).1.loggedIn = c.loggedIn := by
  simp only [handlePlayStatus]
  repeat' split
  all_goals simp [closeConn_loggedIn]

/-- handlePlayStatus never clears a nonempty expected set. -/
lemma handlePlayStatus_expectedIDs (c : Conn) (s : Int)
    (h : c.expectedIDs ≠ []) :
    (handlePlayStatus c s).1.expectedIDs ≠ [] := by
  simp only [handlePlayStatus]
  repeat' split
  all_goals simp_all [closeConn_expectedIDs]

/-- An unexpected, non-Disconnect packet fails the membership loop. -/
lemma expectedMatch_eq_false (ids : List Nat) (pid : Nat)
    (h1 : pid ∉ ids) (h2 : pid ≠ IDDisconnect) :
    expectedMatch ids pid = false := by
  simp only [expectedMatch, List.any_eq_false]
  intro i hi
  simp only [Bool.or_eq_true, beq_iff_eq, not_or]
  exact ⟨fun he => h1 (he ▸ hi), h2⟩

/-- A Disconnect passes the membership loop whenever the expected set
is nonempty (the Disconnect escape sits inside the loop body). -/
lemma expectedMatch_disconnect (ids : List Nat) (h : ids ≠ []) :
    expectedMatch ids IDDisconnect = true := by
  cases ids with
  | nil => exact absurd rfl h
  | cons a t => simp [expectedMatch]

/-- C6: while not logged in, an inbound packet whose ID is neither
expected nor Disconnect is consumed as a strict no-op — no error and
the connection state completely unchanged — whereas a Disconnect is
honoured in every pre-login state (the expected set is nonempty in all
reachable states, and the third part shows every transition keeps it
so): it closes the connection and surfaces the Disconnected error with
the packet's message. -/
theorem incoming_gate (c : Conn) (pk : Packet) (msg : String) :
    (c.loggedIn = false → pk.id ∉ c.expectedIDs → pk.id ≠ IDDisconnect →
      handleIncoming c pk = (c, none)) ∧
    (c.loggedIn = false → c.expectedIDs ≠ [] →
      handleIncoming c (Packet.disconnect msg) =
        (closeConn c, some ("Disconnected: " ++ msg))) ∧
    (c.expectedIDs ≠ [] → (handleIncoming c pk).1.expectedIDs ≠ []) := by
  refine ⟨?_, ?_, ?_⟩
  · intro hlog hmem hdisc
    simp only [handleIncoming, hlog, expectedMatch_eq_false c.expectedIDs pk.id hmem hdisc]
    rfl
  · intro hlog hne
    have hid : (Packet.disconnect msg).id = IDDisconnect := rfl
    simp only [handleIncoming, hlog, hid, expectedMatch_disconnect c.expectedIDs hne]
    rfl
  · intro hne
    by_cases hlog : c.loggedIn
    · simp only [handleIncoming, hlog]
      simpa using hne
    · simp only [handleIncoming, Bool.not_eq_true] at hlog
      simp only [handleIncoming, hlog]
      by_cases hm : expectedMatch c.expectedIDs pk.id
      · simp only [hm, Bool.not_true, Bool.false_eq_true, if_false]
        cases pk with
        | login p r => simpa [handleLogin_expectedIDs] using hne
        | clientToServerHandshake => simp [handleClientToServerHandshake, writePk]
        | resourcePackClientResponse resp ps =>
          exact handleClientResponse_expectedIDs c resp ps hne
        | resourcePackChunkRequest uuid idx =>
          exact handleChunkRequest_expectedIDs c uuid idx hne
        | requestChunkRadius => simpa using hne
        | serverToClientHandshake j => simpa [handleS2CH_expectedIDs] using hne
        | playStatus s => exact handlePlayStatus_expectedIDs c s hne
        | resourcePacksInfo req sf tex beh => exact handlePacksInfo_expectedIDs c tex beh
        | resourcePackDataInfo uuid cs cc sz =>
          simpa [handleDataInfo_expectedIDs] using hne
        | resourcePackChunkData uuid idx off data =>
          simpa [handleChunkData_expectedIDs] using hne
        | resourcePackStack req tex beh => simpa [handleStack_expectedIDs] using hne
        | startGame => simpa using hne
        | disconnect m => simpa [closeConn_expectedIDs] using hne
        | unknown n => simpa using hne
      · simp only [Bool.not_eq_true] at hm
        simp only [hm, Bool.not_false, if_true]
        simpa using hne

/-- Witness for the C6 theorem on a fresh server connection: the
unexpected StartGame packet is a strict no-op, Disconnect closes with
its message, and the expected set stays nonempty. -/
theorem incoming_gate_witness :
    handleIncoming (newConn 0 []) Packet.startGame = (newConn 0 [], none) ∧
    handleIncoming (newConn 0 []) (Packet.disconnect "kicked") =
      (closeConn (newConn 0 []), some ("Disconnected: " ++ "kicked")) ∧
    (handleIncoming (newConn 0 []) Packet.startGame).1.expectedIDs ≠ [] := by
  have h := incoming_gate (newConn 0 []) Packet.startGame "kicked"
  exact ⟨h.1 rfl (by decide) (by decide), h.2.1 rfl (by decide), h.2.2 (by decide)⟩

/-- C7: the logged-in latch is monotone — once true it stays true
through every inbound packet, through Close and through Write — and a
false-to-true transition happens only in the two places the claim
names: the client handling a ResourcePackStack whose packs are all
downloaded (the connected event is signalled and the Completed response
is buffered in the same step) or the server handling a
ResourcePackClientResponse with the Completed response. -/
theorem loggedIn_latch (c : Conn) (pk : Packet) (b : List Nat) :
    (c.loggedIn = true → (handleIncoming c pk).1.loggedIn = true) ∧
    ((closeConn c).loggedIn = c.loggedIn) ∧
    ((connWrite c b).1.loggedIn = c.loggedIn) ∧
    (c.loggedIn = false → (handleIncoming c pk).1.loggedIn = true →
      ((∃ req tex beh, pk = Packet.resourcePackStack req tex beh ∧
          (∀ e ∈ tex, hasPack c e.1 e.2 false = true) ∧
          (∀ e ∈ beh, hasPack c e.1 e.2 true = true) ∧
          (handleIncoming c pk).1.connected = true ∧
          Out.pk (Packet.resourcePackClientResponse packResponseCompleted []) ∈
            outputs (handleIncoming c pk).1) ∨
        (∃ ps, pk = Packet.resourcePackClientResponse packResponseCompleted ps))) := by
  refine ⟨?_, closeConn_loggedIn c, rfl, ?_⟩
  · intro hlog
    simp only [handleIncoming, hlog]
    simpa using hlog
  · intro hlog htrue
    simp only [handleIncoming, hlog] at htrue
    by_cases hm : expectedMatch c.expectedIDs pk.id
    case neg =>
      simp only [Bool.not_eq_true] at hm
      simp [hm] at htrue
      rw [hlog] at htrue
      exact absurd htrue (by simp)
    case pos =>
      simp only [hm, Bool.not_true, Bool.false_eq_true, if_false] at htrue
      cases pk with
      | login p r => rw [handleLogin_loggedIn, hlog] at htrue; exact absurd htrue (by simp)
      | clientToServerHandshake =>
        rw [show (handleClientToServerHandshake c).1.loggedIn = c.loggedIn from rfl, hlog] at htrue
        exact absurd htrue (by simp)
      | serverToClientHandshake j =>
        rw [handleS2CH_loggedIn, hlog] at htrue; exact absurd htrue (by simp)
      | playStatus s =>
        rw [handlePlayStatus_loggedIn, hlog] at htrue; exact absurd htrue (by simp)
      | resourcePacksInfo req sf tex beh =>
        rw [handlePacksInfo_loggedIn, hlog] at htrue; exact absurd htrue (by simp)
      | resourcePackDataInfo uuid cs cc sz =>
        rw [handleDataInfo_loggedIn, hlog] at htrue; exact absurd htrue (by simp)
      | resourcePackChunkData uuid idx off data =>
        rw [handleChunkData_loggedIn, hlog] at htrue; exact absurd htrue (by simp)
      | resourcePackChunkRequest uuid idx =>
        rw [handleChunkRequest_loggedIn, hlog] at htrue; exact absurd htrue (by simp)
      | requestChunkRadius => simp only [hlog] at htrue; exact absurd htrue (by simp)
      | startGame => simp only [hlog] at htrue; exact absurd htrue (by simp)
      | unknown n => simp only [hlog] at htrue; exact absurd htrue (by simp)
      | disconnect m =>
        rw [closeConn_loggedIn, hlog] at htrue; exact absurd htrue (by simp)
      | resourcePackStack req tex beh =>
        left
        refine ⟨req, tex, beh, rfl, ?_⟩
        simp only [handleIncoming, hlog, hm, Bool.not_true, Bool.false_eq_true, if_false]
        simp only [handleResourcePackStack, writePk] at htrue ⊢
        split at htrue
        · simp [hlog] at htrue
        · split at htrue
          · simp [hlog] at htrue
          · rename_i x1 htex x2 hbeh
            simp only [htex, hbeh]
            refine ⟨?_, ?_, ?_, ?_⟩
            · intro e he
              simpa using List.find?_eq_none.mp htex e he
            · intro e he
              simpa using List.find?_eq_none.mp hbeh e he
            · trivial
            · simp [outputs]
      | resourcePackClientResponse resp ps =>
        right
        refine ⟨ps, ?_⟩
        simp only [handleResourcePackClientResponse, writePk] at htrue
        split at htrue
        · rw [closeConn_loggedIn, hlog] at htrue; exact absurd htrue (by simp)
        · split at htrue
          · split at htrue
            · simp only [hlog] at htrue; exact absurd htrue (by simp)
            · rw [nextDownload_loggedIn, hlog] at htrue; exact absurd htrue (by simp)
          · split at htrue
            · simp only [hlog] at htrue; exact absurd htrue (by simp)
            · split at htrue
              · rename_i hcompleted
                rw [hcompleted]
              · simp only [hlog] at htrue; exact absurd htrue (by simp)

/-- A concrete client connection expecting the resource pack stack. -/
def c7c : Conn := { newConn 0 [] with expectedIDs := [IDResourcePackStack] }

/-- Witness for the C7 theorem: an empty ResourcePackStack on a fresh
client flips the latch, and the theorem pins the transition to the
stack handler with the connected event signalled and the Completed
response buffered. -/
theorem loggedIn_latch_witness :
    (∃ req tex beh,
        (Packet.resourcePackStack false [] [] : Packet) =
          Packet.resourcePackStack req tex beh ∧
        (∀ e ∈ tex, hasPack c7c e.1 e.2 false = true) ∧
        (∀ e ∈ beh, hasPack c7c e.1 e.2 true = true) ∧
        (handleIncoming c7c (Packet.resourcePackStack false [] [])).1.connected = true ∧
        Out.pk (Packet.resourcePackClientResponse packResponseCompleted []) ∈
          outputs (handleIncoming c7c (Packet.resourcePackStack false [] [])).1) ∨
      (∃ ps, (Packet.resourcePackStack false [] [] : Packet) =
        Packet.resourcePackClientResponse packResponseCompleted ps) :=
  (loggedIn_latch c7c (Packet.resourcePackStack false [] []) []).2.2.2 rfl (by decide)
